import Mathlib

/-
Verification of the SGP30 gas-sensor driver (src/__init__.py).

The driver is shallowly embedded: the I2C bus transport is a `Bus` record
(scan result, queued read responses, per-attempt write success), the driver
object state (`self._init`) plus an observation log of all transport calls
is a `DriverState`, and each Python method becomes a Lean function returning
`Except DriverError result × DriverState`.  A raised Python exception is the
`.error` case; the state component always carries the mutations (log entries,
flag updates) that happened before the exception, exactly as the surviving
Python objects would.
-/

/-- Error kinds of the driver, one per distinct raise site:
device absent at construction, CRC verification failure in a response word,
self test after the first calibrated reading, the failed assert on the
self-test response value, and a transport (bus write) failure. -/
inductive DriverError
  | deviceNotFound
  | checksumMismatch
  | sequencingViolation
  | unexpectedResponseValue
  | transportError
deriving DecidableEq, Repr

/-- One observable transport call: a write of bytes to an address, a sleep
for a duration (milliseconds), or a read of a byte count from an address. -/
inductive Event
  | writeEv : Nat → List Nat → Event
  | sleepEv : Nat → Event
  | readEv : Nat → Nat → Event
deriving DecidableEq, Repr

/-- The abstract I2C bus: the set of addresses its scan reports, the queue of
responses successive reads return, and whether the n-th write attempt
succeeds (a failed write models an I2C transport error). -/
structure Bus where
  devices : List Nat
  reads : List (List Nat)
  writeOk : Nat → Bool

/-- Driver-visible state: the `self._init` flag, counters locating the next
read response / write attempt, and the log of transport calls made so far. -/
structure DriverState where
  _init : Bool
  nReads : Nat
  nWrites : Nat
  trace : List Event
deriving Repr

/-- Fixed device address, `SGP30.ADDR = 0x58`. -/
def ADDR : Nat := 0x58

/-- The inner 8-iteration bit loop of `SGP30._crc8` (line 89-90): if the high
bit of the running value is set, shift left and xor the polynomial 0x31,
masked to 8 bits; otherwise shift left with no mask, as the source writes it. -/
def crc8bits : Nat → Nat → Nat
  | crc, 0 => crc
  | crc, j + 1 =>
    crc8bits (if crc &&& 0x80 ≠ 0 then ((crc <<< 1) ^^^ 0x31) &&& 0xff else crc <<< 1) j

/-- `SGP30._crc8` (lines 83-91): running value starts at 0xff; each data byte
is xor-ed in and followed by 8 bit iterations. -/
def crc8 (data : List Nat) : Nat :=
  data.foldl (fun crc b => crc8bits (crc ^^^ b) 8) 0xff

/-- Modelled from the spec (section 4.1), for comparison with `crc8bits`: the
same bit step but with BOTH branches masked to 8 bits, as the spec words it. -/
def crc8bitsSpec : Nat → Nat → Nat
  | crc, 0 => crc
  | crc, j + 1 =>
    crc8bitsSpec
      (if crc &&& 0x80 ≠ 0 then ((crc <<< 1) ^^^ 0x31) &&& 0xff else (crc <<< 1) &&& 0xff) j

/-- Modelled from the spec (section 4.1): CRC-8, polynomial 0x31, initial
value 0xff, no final xor, MSB first, both branches masked. -/
def crc8Spec (data : List Nat) : Nat :=
  data.foldl (fun crc b => crc8bitsSpec (crc ^^^ b) 8) 0xff

/-- `self._i2c.writeto(SGP30.ADDR, ...)`: the attempt is logged either way;
a failing transport raises, modelled by the `.error` result. -/
def writeto (bus : Bus) (s : DriverState) (addr : Nat) (data : List Nat) :
    Except DriverError Unit × DriverState :=
  ((if bus.writeOk s.nWrites then .ok () else .error .transportError),
   { s with nWrites := s.nWrites + 1, trace := s.trace ++ [Event.writeEv addr data] })

/-- `time.sleep(wait)`: logged, no other effect. -/
def sleep (s : DriverState) (wait : Nat) : DriverState :=
  { s with trace := s.trace ++ [Event.sleepEv wait] }

/-- `self._i2c.readfrom(SGP30.ADDR, count)`: returns the next queued response
and logs the read. -/
def readfrom (bus : Bus) (s : DriverState) (addr : Nat) (count : Nat) :
    List Nat × DriverState :=
  (bus.reads.getD s.nReads [],
   { s with nReads := s.nReads + 1, trace := s.trace ++ [Event.readEv addr count] })

/-- The response-word loop of `SGP30._cmd` (lines 26-32): for each word take
`resp[i*3:i*3+2]`, compare `_crc8` of it with `resp[i*3+2]`, raise on the
first mismatch, and concatenate the 2-byte values. -/
def parseResp (resp : List Nat) (i : Nat) : Nat → Except DriverError (List Nat)
  | 0 => .ok []
  | n + 1 =>
    let word := (resp.drop (i * 3)).take 2
    if crc8 word = resp.getD (i * 3 + 2) 0 then
      match parseResp resp (i + 1) n with
      | .error e => .error e
      | .ok rest => .ok (word ++ rest)
    else .error .checksumMismatch

/-- `SGP30._cmd` (lines 18-32): write the big-endian opcode, sleep for the
settle delay (milliseconds), return empty for 0 response words, otherwise
read `response_words * 3` bytes and run the checksum/concatenation loop. -/
def _cmd (bus : Bus) (s : DriverState) (opcode response_words wait : Nat) :
    Except DriverError (List Nat) × DriverState :=
  match writeto bus s ADDR [opcode >>> 8, opcode &&& 0xff] with
  | (.error e, s1) => (.error e, s1)
  | (.ok _, s1) =>
    let s2 := sleep s1 wait
    if response_words = 0 then (.ok [], s2)
    else
      match readfrom bus s2 ADDR (response_words * 3) with
      | (resp, s3) =>
        match parseResp resp 0 response_words with
        | .error e => (.error e, s3)
        | .ok bs => (.ok bs, s3)

/-- `SGP30._get_serial_id` (lines 34-36): opcode 0x3682, 3 response words. -/
def _get_serial_id (bus : Bus) (s : DriverState) :
    Except DriverError (List Nat) × DriverState :=
  _cmd bus s 0x3682 3 10

/-- `SGP30._init_air_quality` (lines 38-39): opcode 0x2003, 0 response words. -/
def _init_air_quality (bus : Bus) (s : DriverState) :
    Except DriverError (List Nat) × DriverState :=
  _cmd bus s 0x2003 0 10

/-- The decoded air-quality reading returned by `air_quality`. -/
structure Measurement where
  co2_ppm : Nat
  tvoc_ppb : Nat
deriving DecidableEq, Repr

/-- `SGP30._measure_air_quality` (lines 41-49): opcode 0x2008, 2 response
words, decoded as `resp[0]<<8 | resp[1]` and `resp[2]<<8 | resp[3]`. -/
def _measure_air_quality (bus : Bus) (s : DriverState) :
    Except DriverError Measurement × DriverState :=
  match _cmd bus s 0x2008 2 10 with
  | (.error e, s1) => (.error e, s1)
  | (.ok resp, s1) =>
    (.ok { co2_ppm := resp.getD 0 0 <<< 8 ||| resp.getD 1 0,
           tvoc_ppb := resp.getD 2 0 <<< 8 ||| resp.getD 3 0 }, s1)

/-- `SGP30._measure_raw_signals` (lines 51-52): opcode 0x2050, 2 words. -/
def _measure_raw_signals (bus : Bus) (s : DriverState) :
    Except DriverError (List Nat) × DriverState :=
  _cmd bus s 0x2050 2 10

/-- `SGP30.measure_test` (lines 57-62): refuse after the first calibrated
reading, otherwise opcode 0x2032 with 1 response word and a 250 ms wait; the
response must equal [0xd4, 0x00] (the failing assert is the error case). -/
def measure_test (bus : Bus) (s : DriverState) :
    Except DriverError Unit × DriverState :=
  if s._init then (.error .sequencingViolation, s)
  else
    match _cmd bus s 0x2032 1 250 with
    | (.error e, s1) => (.error e, s1)
    | (.ok resp, s1) =>
      if resp = [0xd4, 0x00] then (.ok (), s1)
      else (.error .unexpectedResponseValue, s1)

/-- `SGP30.air_quality` (lines 77-81): on the first call issue the init
command and only then set `self._init`; every call ends in a measurement. -/
def air_quality (bus : Bus) (s : DriverState) :
    Except DriverError Measurement × DriverState :=
  if s._init = false then
    match _init_air_quality bus s with
    | (.error e, s1) => (.error e, s1)
    | (.ok _, s1) => _measure_air_quality bus { s1 with _init := true }
  else _measure_air_quality bus s

/-- `SGP30.__init__` (lines 10-16): scan the bus, raise if 0x58 is absent
before any command, otherwise start with `self._init = False` and read the
serial id.  On success the constructed driver state is returned; the second
component is the world state in either case. -/
def mkDriver (bus : Bus) : Except DriverError DriverState × DriverState :=
  let s0 : DriverState := { _init := false, nReads := 0, nWrites := 0, trace := [] }
  if ADDR ∈ bus.devices then
    match _get_serial_id bus s0 with
    | (.error e, s1) => (.error e, s1)
    | (.ok _, s1) => (.ok s1, s1)
  else (.error .deviceNotFound, s0)

/-- Number of logged write attempts carrying the init-air-quality opcode
bytes [0x20, 0x03]. -/
def initWriteCount (tr : List Event) : Nat :=
  tr.countP (fun e => decide (e = Event.writeEv ADDR [0x20, 0x03]))

/-- Number of logged write attempts of any opcode. -/
def writeCount (tr : List Event) : Nat :=
  tr.countP (fun e => match e with | Event.writeEv _ _ => true | _ => false)

/-- A transport-log fragment containing at most one write, at most one sleep
and at most one read, in that fixed order. -/
def wsrShape : List Event → Bool
  | [] => true
  | [Event.writeEv _ _] => true
  | [Event.writeEv _ _, Event.sleepEv _] => true
  | [Event.writeEv _ _, Event.sleepEv _, Event.readEv _ _] => true
  | _ => false

/-- Modelled from the spec (section 4.2): the concatenated 2-byte values of
the first `n` response words, checksum bytes discarded, in order. -/
def stripChecksums (resp : List Nat) (i : Nat) : Nat → List Nat
  | 0 => []
  | n + 1 => (resp.drop (i * 3)).take 2 ++ stripChecksums resp (i + 1) n

/-- Iterated calls of `air_quality` against one bus, threading the state. -/
def callN (bus : Bus) (s : DriverState) : Nat → DriverState
  | 0 => s
  | n + 1 => callN bus (air_quality bus s).2 n

/-- One bit step of the source CRC agrees with the spec-worded step on inputs
below 256, and its output stays below 256 (the missing mask in the else
branch of line 90 never matters there). -/
theorem crcStep_eq_and_lt :
    ∀ crc < 256,
      (if crc &&& 0x80 ≠ 0 then ((crc <<< 1) ^^^ 0x31) &&& 0xff else crc <<< 1) =
        (if crc &&& 0x80 ≠ 0 then ((crc <<< 1) ^^^ 0x31) &&& 0xff
         else (crc <<< 1) &&& 0xff) ∧
      (if crc &&& 0x80 ≠ 0 then ((crc <<< 1) ^^^ 0x31) &&& 0xff else crc <<< 1) < 256 := by
  set_option maxRecDepth 4096 in decide

/-- The source bit loop and the spec-worded bit loop agree below 256 and stay
below 256. -/
theorem crc8bits_eq_spec :
    ∀ (j crc : Nat), crc < 256 →
      crc8bits crc j = crc8bitsSpec crc j ∧ crc8bits crc j < 256 := by
  intro j
  induction j with
  | zero => intro crc h; exact ⟨rfl, h⟩
  | succ j ih =>
    intro crc h
    obtain ⟨he, hl⟩ := crcStep_eq_and_lt crc h
    rw [crc8bits, crc8bitsSpec, ← he]
    exact ih _ hl

/-- Value of a high part shifted past a low part: bitwise or is addition. -/
theorem lor_high_low : ∀ (k a b : Nat), b < 2 ^ k → 2 ^ k * a ||| b = 2 ^ k * a + b := by
  intro k
  induction k with
  | zero =>
    intro a b hb
    interval_cases b
    simp
  | succ k ih =>
    intro a b hb
    have hdecomp : Nat.bit b.bodd b.div2 = b := Nat.bit_decomp b
    rw [← hdecomp]
    have h2 : 2 ^ (k + 1) * a = Nat.bit false (2 ^ k * a) := by
      simp [Nat.bit_false]
      ring
    rw [h2, Nat.lor_bit]
    have hlt : b.div2 < 2 ^ k := by
      rw [Nat.div2_val]
      omega
    rw [ih a b.div2 hlt]
    simp [Nat.bit_val]
    cases b.bodd <;> simp <;> ring

/-- A failed write makes `_cmd` raise the transport error after logging only
the write attempt. -/
theorem cmd_write_fail (bus : Bus) (s : DriverState) (op words wait : Nat)
    (h : bus.writeOk s.nWrites = false) :
    _cmd bus s op words wait =
      (.error .transportError,
       { s with nWrites := s.nWrites + 1,
                trace := s.trace ++ [Event.writeEv ADDR [op >>> 8, op &&& 0xff]] }) := by
  simp [_cmd, writeto, h]

/-- With 0 response words `_cmd` returns empty after write and sleep only. -/
theorem cmd_zero (bus : Bus) (s : DriverState) (op wait : Nat)
    (h : bus.writeOk s.nWrites = true) :
    _cmd bus s op 0 wait =
      (.ok [],
       { s with nWrites := s.nWrites + 1,
                trace := s.trace ++ [Event.writeEv ADDR [op >>> 8, op &&& 0xff],
                                     Event.sleepEv wait] }) := by
  simp [_cmd, writeto, sleep, h]

/-- With a positive word count `_cmd` writes, sleeps, reads `words * 3` bytes
and returns the parse of the queued response. -/
theorem cmd_pos (bus : Bus) (s : DriverState) (op words wait : Nat)
    (h : bus.writeOk s.nWrites = true) (hw : words ≠ 0) :
    _cmd bus s op words wait =
      (parseResp (bus.reads.getD s.nReads []) 0 words,
       { s with nWrites := s.nWrites + 1, nReads := s.nReads + 1,
                trace := s.trace ++ [Event.writeEv ADDR [op >>> 8, op &&& 0xff],
                                     Event.sleepEv wait,
                                     Event.readEv ADDR (words * 3)] }) := by
  cases hp : parseResp (bus.reads.getD s.nReads []) 0 words <;>
    simp_all [_cmd, writeto, sleep, readfrom]

/-- No command execution touches the calibration flag. -/
theorem cmd_init_flag (bus : Bus) (s : DriverState) (op words wait : Nat) :
    (_cmd bus s op words wait).2._init = s._init := by
  cases h : bus.writeOk s.nWrites
  · rw [cmd_write_fail bus s op words wait h]
  · cases words with
    | zero => rw [cmd_zero bus s op wait h]
    | succ n => rw [cmd_pos bus s op (n + 1) wait h (Nat.succ_ne_zero n)]

/-- Every command execution extends the log by a fragment of shape
write-sleep-read, each at most once, in that order. -/
theorem cmd_trace_ext (bus : Bus) (s : DriverState) (op words wait : Nat) :
    ∃ ext, (_cmd bus s op words wait).2.trace = s.trace ++ ext ∧ wsrShape ext = true := by
  cases h : bus.writeOk s.nWrites
  · rw [cmd_write_fail bus s op words wait h]
    exact ⟨_, rfl, rfl⟩
  · cases words with
    | zero =>
      rw [cmd_zero bus s op wait h]
      exact ⟨_, rfl, rfl⟩
    | succ n =>
      rw [cmd_pos bus s op (n + 1) wait h (Nat.succ_ne_zero n)]
      exact ⟨_, rfl, rfl⟩

/-- A command execution adds to the init-opcode write count exactly the count
of its own single write event. -/
theorem cmd_initCount (bus : Bus) (s : DriverState) (op words wait : Nat) :
    initWriteCount (_cmd bus s op words wait).2.trace =
      initWriteCount s.trace +
        initWriteCount [Event.writeEv ADDR [op >>> 8, op &&& 0xff]] := by
  cases h : bus.writeOk s.nWrites
  · rw [cmd_write_fail bus s op words wait h]
    simp [initWriteCount, List.countP_append]
  · cases words with
    | zero =>
      rw [cmd_zero bus s op wait h]
      simp [initWriteCount, List.countP_append, List.countP_cons]
    | succ n =>
      rw [cmd_pos bus s op (n + 1) wait h (Nat.succ_ne_zero n)]
      simp [initWriteCount, List.countP_append, List.countP_cons]

/-- The only error the response-word loop raises is the CRC mismatch. -/
theorem parseResp_error_eq :
    ∀ (n i : Nat) (resp : List Nat) (e : DriverError),
      parseResp resp i n = .error e → e = .checksumMismatch := by
  intro n
  induction n with
  | zero => intro i resp e h; simp [parseResp] at h
  | succ n ih =>
    intro i resp e h
    simp only [parseResp] at h
    by_cases hc : crc8 ((resp.drop (i * 3)).take 2) = resp.getD (i * 3 + 2) 0
    · rw [if_pos hc] at h
      cases hp : parseResp resp (i + 1) n with
      | error e2 =>
        rw [hp] at h
        injection h with h2
        rw [← h2]
        exact ih (i + 1) resp e2 hp
      | ok rest => rw [hp] at h; cases h
    · rw [if_neg hc] at h
      injection h with h2
      rw [← h2]

/-- A successful response-word loop returns exactly the spec-worded
concatenation of 2-byte values with checksum bytes discarded. -/
theorem parseResp_ok_strip :
    ∀ (n i : Nat) (resp out : List Nat),
      parseResp resp i n = .ok out → out = stripChecksums resp i n := by
  intro n
  induction n with
  | zero => intro i resp out h; cases h; rfl
  | succ n ih =>
    intro i resp out h
    simp only [parseResp] at h
    by_cases hc : crc8 ((resp.drop (i * 3)).take 2) = resp.getD (i * 3 + 2) 0
    · rw [if_pos hc] at h
      cases hp : parseResp resp (i + 1) n with
      | error e2 => rw [hp] at h; cases h
      | ok rest =>
        rw [hp] at h
        cases h
        rw [stripChecksums, ih (i + 1) resp rest hp]
    · rw [if_neg hc] at h
      cases h

/-- A successful response-word loop implies every word passed its check. -/
theorem parseResp_ok_valid :
    ∀ (n i : Nat) (resp out : List Nat),
      parseResp resp i n = .ok out →
      ∀ j < n, crc8 ((resp.drop ((i + j) * 3)).take 2) = resp.getD ((i + j) * 3 + 2) 0 := by
  intro n
  induction n with
  | zero => intro i resp out _ j hj; omega
  | succ n ih =>
    intro i resp out h j hj
    simp only [parseResp] at h
    by_cases hc : crc8 ((resp.drop (i * 3)).take 2) = resp.getD (i * 3 + 2) 0
    · rw [if_pos hc] at h
      cases hp : parseResp resp (i + 1) n with
      | error e2 => rw [hp] at h; cases h
      | ok rest =>
        cases j with
        | zero => simpa using hc
        | succ j =>
          have hj2 : j < n := by omega
          have := ih (i + 1) resp rest hp j hj2
          have he : i + 1 + j = i + (j + 1) := by omega
          rw [he] at this
          exact this
    · rw [if_neg hc] at h
      cases h

/-- If all words pass their checks the loop succeeds with the stripped bytes. -/
theorem parseResp_ok_of_valid :
    ∀ (n i : Nat) (resp : List Nat),
      (∀ j < n, crc8 ((resp.drop ((i + j) * 3)).take 2) = resp.getD ((i + j) * 3 + 2) 0) →
      parseResp resp i n = .ok (stripChecksums resp i n) := by
  intro n
  induction n with
  | zero => intro i resp _; rfl
  | succ n ih =>
    intro i resp hv
    have hc : crc8 ((resp.drop (i * 3)).take 2) = resp.getD (i * 3 + 2) 0 := by
      simpa using hv 0 (Nat.succ_pos n)
    have hrest : parseResp resp (i + 1) n = .ok (stripChecksums resp (i + 1) n) := by
      apply ih
      intro j hj
      have := hv (j + 1) (by omega)
      have he : i + (j + 1) = i + 1 + j := by omega
      rw [he] at this
      exact this
    simp only [parseResp, if_pos hc, hrest, stripChecksums]

/-- Any failing word makes the loop raise the CRC mismatch error. -/
theorem parseResp_bad (n i : Nat) (resp : List Nat) (j : Nat) (hj : j < n)
    (hbad : crc8 ((resp.drop ((i + j) * 3)).take 2) ≠ resp.getD ((i + j) * 3 + 2) 0) :
    parseResp resp i n = .error .checksumMismatch := by
  cases hp : parseResp resp i n with
  | ok out => exact absurd (parseResp_ok_valid n i resp out hp j hj) hbad
  | error e => rw [parseResp_error_eq n i resp e hp]

/-- The stripped response of `n` words from a long enough payload has exactly
`2 * n` bytes. -/
theorem stripChecksums_length :
    ∀ (n i : Nat) (resp : List Nat), 3 * (i + n) ≤ resp.length →
      (stripChecksums resp i n).length = 2 * n := by
  intro n
  induction n with
  | zero => intro i resp _; rfl
  | succ n ih =>
    intro i resp hlen
    have h1 : ((resp.drop (i * 3)).take 2).length = 2 := by
      simp [List.length_take, List.length_drop]
      omega
    have h2 : (stripChecksums resp (i + 1) n).length = 2 * n := by
      apply ih
      omega
    simp [stripChecksums, h1, h2]
    omega

/-- Every byte of the stripped response is a byte of the raw response. -/
theorem stripChecksums_mem :
    ∀ (n i : Nat) (resp : List Nat) (x : Nat),
      x ∈ stripChecksums resp i n → x ∈ resp := by
  intro n
  induction n with
  | zero => intro i resp x h; simp [stripChecksums] at h
  | succ n ih =>
    intro i resp x h
    rw [stripChecksums, List.mem_append] at h
    cases h with
    | inl h => exact List.mem_of_mem_drop (List.mem_of_mem_take h)
    | inr h => exact ih (i + 1) resp x h

/-- A calibrated measurement leaves the calibration flag as it was. -/
theorem measure_init_flag (bus : Bus) (t : DriverState) :
    (_measure_air_quality bus t).2._init = t._init := by
  unfold _measure_air_quality
  have hflag := cmd_init_flag bus t 0x2008 2 10
  cases hc : _cmd bus t 0x2008 2 10 with
  | mk r t1 =>
    rw [hc] at hflag
    cases r <;> simpa using hflag

/-- A calibrated measurement never adds an init-opcode write. -/
theorem measure_initCount (bus : Bus) (t : DriverState) :
    initWriteCount (_measure_air_quality bus t).2.trace = initWriteCount t.trace := by
  unfold _measure_air_quality
  have hcount := cmd_initCount bus t 0x2008 2 10
  have hz : initWriteCount [Event.writeEv ADDR [0x2008 >>> 8, 0x2008 &&& 0xff]] = 0 := by
    decide
  rw [hz] at hcount
  cases hc : _cmd bus t 0x2008 2 10 with
  | mk r t1 =>
    rw [hc] at hcount
    cases r <;> simpa using hcount

/-- Shape of the first calibrated call: the init command succeeds, the flag
is set, and the measurement runs from the extended state. -/
theorem aq_unfold_first (bus : Bus) (s : DriverState) (h : s._init = false)
    (hw : bus.writeOk s.nWrites = true) :
    air_quality bus s =
      _measure_air_quality bus
        { s with _init := true, nWrites := s.nWrites + 1,
                 trace := s.trace ++ [Event.writeEv ADDR [0x20, 0x03],
                                      Event.sleepEv 10] } := by
  simp [air_quality, _init_air_quality, h, cmd_zero bus s 0x2003 10 hw]
  rw [show (8195 &&& 255 : Nat) = 3 from rfl]

/-- Shape of every later calibrated call: straight to the measurement. -/
theorem aq_unfold_subsequent (bus : Bus) (s : DriverState) (h : s._init = true) :
    air_quality bus s = _measure_air_quality bus s := by
  simp [air_quality, h]

/-- First calibrated call: flag ends true and exactly one init write is added. -/
theorem aq_first (bus : Bus) (s : DriverState) (h : s._init = false)
    (hw : bus.writeOk s.nWrites = true) :
    (air_quality bus s).2._init = true ∧
    initWriteCount (air_quality bus s).2.trace = initWriteCount s.trace + 1 := by
  rw [aq_unfold_first bus s h hw]
  constructor
  · rw [measure_init_flag]
  · rw [measure_initCount]
    have h1 : initWriteCount [Event.writeEv ADDR [0x20, 0x03], Event.sleepEv 10] = 1 := by
      decide
    simp only [initWriteCount] at h1 ⊢
    simp [List.countP_append, h1]

/-- Later calibrated calls: flag stays true and no init write is added. -/
theorem aq_subsequent (bus : Bus) (s : DriverState) (h : s._init = true) :
    (air_quality bus s).2._init = true ∧
    initWriteCount (air_quality bus s).2.trace = initWriteCount s.trace := by
  rw [aq_unfold_subsequent bus s h]
  constructor
  · rw [measure_init_flag]; exact h
  · rw [measure_initCount]

/-- Iterated calls from a calibrated state keep the flag and the init count. -/
theorem callN_inited (bus : Bus) :
    ∀ (n : Nat) (s : DriverState), s._init = true →
      (callN bus s n)._init = true ∧
      initWriteCount (callN bus s n).trace = initWriteCount s.trace := by
  intro n
  induction n with
  | zero => intro s h; exact ⟨h, rfl⟩
  | succ n ih =>
    intro s h
    obtain ⟨h1, h2⟩ := aq_subsequent bus s h
    obtain ⟨h3, h4⟩ := ih (air_quality bus s).2 h1
    exact ⟨h3, by rw [callN, h4, h2]⟩

/-- C3: the checksum is a pure deterministic function of its 2-byte input and
computes exactly the spec-worded CRC-8 (polynomial 0x31, initial value 0xff,
no final xor, MSB first, both branches masked to 8 bits); on the datasheet
pair [0xBE, 0xEF] it yields 0x92. -/
theorem c3_crc8_matches_spec (a b : Nat) (ha : a < 256) (hb : b < 256) :
    crc8 [a, b] = crc8Spec [a, b] ∧ crc8 [0xBE, 0xEF] = 0x92 := by
  constructor
  · have h256 : (256 : Nat) = 2 ^ 8 := by norm_num
    have h1 : (0xff ^^^ a) < 256 := by
      rw [h256] at ha ⊢
      exact Nat.xor_lt_two_pow (by norm_num) ha
    obtain ⟨e1, l1⟩ := crc8bits_eq_spec 8 _ h1
    have h2 : crc8bits (0xff ^^^ a) 8 ^^^ b < 256 := by
      rw [h256] at l1 hb ⊢
      exact Nat.xor_lt_two_pow l1 hb
    obtain ⟨e2, _⟩ := crc8bits_eq_spec 8 _ h2
    show crc8bits (crc8bits (0xff ^^^ a) 8 ^^^ b) 8 =
      crc8bitsSpec (crc8bitsSpec (0xff ^^^ a) 8 ^^^ b) 8
    rw [← e1, ← e2]
  · decide

/-- Witness for C3 at the datasheet golden pair. -/
theorem c3_crc8_matches_spec_witness :
    crc8 [0xBE, 0xEF] = crc8Spec [0xBE, 0xEF] ∧ crc8 [0xBE, 0xEF] = 0x92 :=
  c3_crc8_matches_spec 0xBE 0xEF (by decide) (by decide)

/-- C6: a self test requested after calibration has started fails with the
sequencing error and returns the state unchanged, so its transport log gains
no write, sleep or read at all. -/
theorem c6_self_test_after_calibration (bus : Bus) (s : DriverState)
    (h : s._init = true) :
    measure_test bus s = (.error .sequencingViolation, s) ∧
    (measure_test bus s).2.trace = s.trace := by
  refine ⟨?_, ?_⟩ <;> simp [measure_test, h]

/-- Witness for C6 on a concrete calibrated driver. -/
theorem c6_self_test_after_calibration_witness :
    measure_test ⟨[0x58], [], fun _ => true⟩ ⟨true, 0, 0, []⟩ =
      (.error .sequencingViolation, ⟨true, 0, 0, []⟩) ∧
    (measure_test ⟨[0x58], [], fun _ => true⟩ ⟨true, 0, 0, []⟩).2.trace = [] :=
  c6_self_test_after_calibration ⟨[0x58], [], fun _ => true⟩ ⟨true, 0, 0, []⟩ rfl

/-- C7: construction on a bus whose scan lacks 0x58 fails with the
device-not-found error, yields no driver, and issues no command at all; when
0x58 is present it issues the get-unique-id command (opcode 0x3682, 3
response words, hence a 9-byte read). -/
theorem c7_construction (bus : Bus) :
    (ADDR ∉ bus.devices →
      mkDriver bus = (.error .deviceNotFound, ⟨false, 0, 0, []⟩) ∧
      (mkDriver bus).2.trace = []) ∧
    (ADDR ∈ bus.devices → bus.writeOk 0 = true →
      (mkDriver bus).2.trace =
        [Event.writeEv ADDR [0x36, 0x82], Event.sleepEv 10, Event.readEv ADDR 9]) := by
  constructor
  · intro h
    refine ⟨?_, ?_⟩ <;> simp [mkDriver, h]
  · intro h hw
    have hc := cmd_pos bus ⟨false, 0, 0, []⟩ 0x3682 3 10 hw (by omega)
    cases hp : parseResp (bus.reads.getD 0 []) 0 3 with
    | error e =>
      simp only [List.getD_eq_getElem?_getD] at hp
      simp [mkDriver, h, _get_serial_id, hc, hp]
      rw [show (13954 &&& 255 : Nat) = 130 from rfl]
    | ok out =>
      simp only [List.getD_eq_getElem?_getD] at hp
      simp [mkDriver, h, _get_serial_id, hc, hp]
      rw [show (13954 &&& 255 : Nat) = 130 from rfl]

/-- Witness for C7: an empty bus rejects construction; a bus carrying 0x58
logs exactly the identification command. -/
theorem c7_construction_witness :
    (mkDriver ⟨[], [], fun _ => true⟩ =
      (.error .deviceNotFound, ⟨false, 0, 0, []⟩) ∧
     (mkDriver ⟨[], [], fun _ => true⟩).2.trace = []) ∧
    (mkDriver ⟨[0x58], [[0, 0, 129, 0, 0, 129, 0, 0, 129]], fun _ => true⟩).2.trace =
      [Event.writeEv ADDR [0x36, 0x82], Event.sleepEv 10, Event.readEv ADDR 9] :=
  ⟨(c7_construction ⟨[], [], fun _ => true⟩).1 (by decide),
   (c7_construction ⟨[0x58], [[0, 0, 129, 0, 0, 129, 0, 0, 129]], fun _ => true⟩).2
     (by decide) rfl⟩

/-- Any call from an uncalibrated state attempts the init write exactly once,
whether or not the transport accepts it. -/
theorem aq_uninit_count (bus : Bus) (s : DriverState) (h : s._init = false) :
    initWriteCount (air_quality bus s).2.trace = initWriteCount s.trace + 1 := by
  cases hw : bus.writeOk s.nWrites
  · have hfail := cmd_write_fail bus s 0x2003 0 10 hw
    simp [air_quality, _init_air_quality, h, hfail, initWriteCount, List.countP_append]
    rw [show (8195 &&& 255 : Nat) = 3 from rfl]
    simp [ADDR]
  · exact (aq_first bus s h hw).2

/-- C2: on a fresh driver the calibration flag becomes true on the first
calibrated call and exactly one init command is written; over any positive
number of further calls the flag stays true and the init count stays at
exactly one (zero additional init commands). -/
theorem c2_calibration_once (bus : Bus) (s : DriverState) (n : Nat)
    (h : s._init = false) (hw : bus.writeOk s.nWrites = true) (hn : 0 < n) :
    ((air_quality bus s).2._init = true ∧
     initWriteCount (air_quality bus s).2.trace = initWriteCount s.trace + 1) ∧
    ((callN bus s n)._init = true ∧
     initWriteCount (callN bus s n).trace = initWriteCount s.trace + 1) := by
  obtain ⟨hf, hcnt⟩ := aq_first bus s h hw
  refine ⟨⟨hf, hcnt⟩, ?_⟩
  cases n with
  | zero => omega
  | succ n =>
    obtain ⟨h3, h4⟩ := callN_inited bus n (air_quality bus s).2 hf
    rw [callN]
    exact ⟨h3, by rw [h4, hcnt]⟩

/-- Witness for C2 on a concrete fresh driver and two calls. -/
theorem c2_calibration_once_witness :
    ((air_quality ⟨[0x58], [[1, 144, 76, 0, 100, 254], [1, 144, 76, 0, 100, 254]],
        fun _ => true⟩ ⟨false, 0, 0, []⟩).2._init = true ∧
     initWriteCount (air_quality ⟨[0x58], [[1, 144, 76, 0, 100, 254],
        [1, 144, 76, 0, 100, 254]], fun _ => true⟩ ⟨false, 0, 0, []⟩).2.trace =
       initWriteCount (DriverState.trace ⟨false, 0, 0, []⟩) + 1) ∧
    ((callN ⟨[0x58], [[1, 144, 76, 0, 100, 254], [1, 144, 76, 0, 100, 254]],
        fun _ => true⟩ ⟨false, 0, 0, []⟩ 2)._init = true ∧
     initWriteCount (callN ⟨[0x58], [[1, 144, 76, 0, 100, 254],
        [1, 144, 76, 0, 100, 254]], fun _ => true⟩ ⟨false, 0, 0, []⟩ 2).trace =
       initWriteCount (DriverState.trace ⟨false, 0, 0, []⟩) + 1) :=
  c2_calibration_once _ _ 2 rfl rfl (by decide)

/-- C10: if the init command's write fails on a first calibrated call, the
call raises the transport error and the calibration flag stays false (the
flag is only set after the init command completes), so the next call attempts
the init command again (two init writes logged over the two calls); and once
the flag is true no operation ever resets it, errors included. -/
theorem c10_flag_only_after_init (bus : Bus) (s : DriverState) :
    (s._init = false → bus.writeOk s.nWrites = false →
      (air_quality bus s).1 = .error .transportError ∧
      (air_quality bus s).2._init = false ∧
      initWriteCount (callN bus s 2).trace = initWriteCount s.trace + 2) ∧
    (s._init = true →
      (air_quality bus s).2._init = true ∧
      (measure_test bus s).2._init = true ∧
      (_measure_raw_signals bus s).2._init = true ∧
      (_get_serial_id bus s).2._init = true) := by
  constructor
  · intro h hw
    have hfail := cmd_write_fail bus s 0x2003 0 10 hw
    have haq : air_quality bus s =
        (.error .transportError,
         { s with nWrites := s.nWrites + 1,
                  trace := s.trace ++ [Event.writeEv ADDR [8195 >>> 8, 8195 &&& 255]] }) := by
      simp [air_quality, _init_air_quality, h, hfail]
    refine ⟨by rw [haq], by rw [haq]; exact h, ?_⟩
    have h1 : (air_quality bus s).2._init = false := by rw [haq]; exact h
    have hc1 : initWriteCount (air_quality bus s).2.trace =
        initWriteCount s.trace + 1 := aq_uninit_count bus s h
    have hc2 := aq_uninit_count bus (air_quality bus s).2 h1
    show initWriteCount (callN bus (air_quality bus s).2 1).trace =
      initWriteCount s.trace + 2
    rw [callN, callN, hc2, hc1]
  · intro h
    refine ⟨(aq_subsequent bus s h).1, ?_, ?_, ?_⟩
    · simp [measure_test, h]
    · unfold _measure_raw_signals
      rw [cmd_init_flag]
      exact h
    · unfold _get_serial_id
      rw [cmd_init_flag]
      exact h

/-- Witness for C10: a bus that rejects the very first write, and a
calibrated driver state for the monotonicity part. -/
theorem c10_flag_only_after_init_witness :
    ((air_quality ⟨[0x58], [], fun _ => false⟩ ⟨false, 0, 0, []⟩).1 =
        .error .transportError ∧
     (air_quality ⟨[0x58], [], fun _ => false⟩ ⟨false, 0, 0, []⟩).2._init = false ∧
     initWriteCount (callN ⟨[0x58], [], fun _ => false⟩ ⟨false, 0, 0, []⟩ 2).trace =
       initWriteCount (DriverState.trace ⟨false, 0, 0, []⟩) + 2) ∧
    ((air_quality ⟨[0x58], [], fun _ => false⟩ ⟨true, 0, 0, []⟩).2._init = true ∧
     (measure_test ⟨[0x58], [], fun _ => false⟩ ⟨true, 0, 0, []⟩).2._init = true ∧
     (_measure_raw_signals ⟨[0x58], [], fun _ => false⟩ ⟨true, 0, 0, []⟩).2._init = true ∧
     (_get_serial_id ⟨[0x58], [], fun _ => false⟩ ⟨true, 0, 0, []⟩).2._init = true) :=
  ⟨(c10_flag_only_after_init ⟨[0x58], [], fun _ => false⟩ ⟨false, 0, 0, []⟩).1 rfl rfl,
   (c10_flag_only_after_init ⟨[0x58], [], fun _ => false⟩ ⟨true, 0, 0, []⟩).2 rfl⟩

/-- C5: a command execution writes the 2-byte big-endian opcode to the fixed
address then sleeps for the settle delay; with word count 0 it returns empty
with no read attempted; with a positive word count it reads exactly
`3 * word_count` bytes and, on success, returns the concatenated 2-byte
values in order with checksum bytes discarded, of length `2 * word_count`. -/
theorem c5_cmd_contract (bus : Bus) (s : DriverState) (op words wait : Nat)
    (hw : bus.writeOk s.nWrites = true) :
    (words = 0 →
      _cmd bus s op words wait =
        (.ok [], { s with
                     nWrites := s.nWrites + 1,
                     trace := s.trace ++ [Event.writeEv ADDR [op >>> 8, op &&& 0xff],
                                          Event.sleepEv wait] })) ∧
    (words ≠ 0 →
      (_cmd bus s op words wait).2.trace =
        s.trace ++ [Event.writeEv ADDR [op >>> 8, op &&& 0xff], Event.sleepEv wait,
                    Event.readEv ADDR (words * 3)] ∧
      ∀ out, (_cmd bus s op words wait).1 = .ok out →
        out = stripChecksums (bus.reads.getD s.nReads []) 0 words ∧
        ((bus.reads.getD s.nReads []).length = words * 3 → out.length = 2 * words)) := by
  constructor
  · intro h0
    subst h0
    exact cmd_zero bus s op wait hw
  · intro hpos
    rw [cmd_pos bus s op words wait hw hpos]
    refine ⟨rfl, ?_⟩
    intro out hout
    have hstrip := parseResp_ok_strip words 0 _ out hout
    refine ⟨hstrip, ?_⟩
    intro hlen
    rw [hstrip]
    apply stripChecksums_length
    omega

/-- Witness for C5: the init command (0 words) and the measure command
(2 words) against a concrete bus. -/
theorem c5_cmd_contract_witness :
    (_cmd ⟨[0x58], [[1, 144, 76, 0, 100, 254]], fun _ => true⟩ ⟨false, 0, 0, []⟩
        0x2003 0 10 =
      (.ok [], ⟨false, 0, 1, [Event.writeEv ADDR [0x20, 0x03], Event.sleepEv 10]⟩)) ∧
    ((_cmd ⟨[0x58], [[1, 144, 76, 0, 100, 254]], fun _ => true⟩ ⟨false, 0, 0, []⟩
        0x2008 2 10).2.trace =
      [] ++ [Event.writeEv ADDR [0x20, 0x08], Event.sleepEv 10, Event.readEv ADDR 6] ∧
     ∀ out, (_cmd ⟨[0x58], [[1, 144, 76, 0, 100, 254]], fun _ => true⟩ ⟨false, 0, 0, []⟩
        0x2008 2 10).1 = .ok out →
       out = stripChecksums [1, 144, 76, 0, 100, 254] 0 2 ∧
       (([1, 144, 76, 0, 100, 254] : List Nat).length = 2 * 3 → out.length = 2 * 2)) :=
  ⟨(c5_cmd_contract ⟨[0x58], [[1, 144, 76, 0, 100, 254]], fun _ => true⟩
      ⟨false, 0, 0, []⟩ 0x2003 0 10 rfl).1 rfl,
   (c5_cmd_contract ⟨[0x58], [[1, 144, 76, 0, 100, 254]], fun _ => true⟩
      ⟨false, 0, 0, []⟩ 0x2008 2 10 rfl).2 (by decide)⟩

/-- C4: if any response word's recomputed checksum differs from its trailing
checksum byte, the command execution fails at once with the checksum error,
returns no result, and performs only its single read (no retry). -/
theorem c4_checksum_mismatch (bus : Bus) (s : DriverState) (op words wait j : Nat)
    (hw : bus.writeOk s.nWrites = true) (hj : j < words)
    (hbad : crc8 (((bus.reads.getD s.nReads []).drop (j * 3)).take 2) ≠
            (bus.reads.getD s.nReads []).getD (j * 3 + 2) 0) :
    (_cmd bus s op words wait).1 = .error .checksumMismatch ∧
    (∀ out, (_cmd bus s op words wait).1 ≠ .ok out) ∧
    (_cmd bus s op words wait).2.trace =
      s.trace ++ [Event.writeEv ADDR [op >>> 8, op &&& 0xff], Event.sleepEv wait,
                  Event.readEv ADDR (words * 3)] := by
  have hwords : words ≠ 0 := by omega
  rw [cmd_pos bus s op words wait hw hwords]
  have hbad0 : crc8 (((bus.reads.getD s.nReads []).drop ((0 + j) * 3)).take 2) ≠
      (bus.reads.getD s.nReads []).getD ((0 + j) * 3 + 2) 0 := by
    simpa using hbad
  have hp := parseResp_bad words 0 (bus.reads.getD s.nReads []) j hj hbad0
  exact ⟨by rw [hp], by rw [hp]; exact fun out h => Except.noConfusion h, rfl⟩

/-- Witness for C4: a measure-air-quality response whose first checksum byte
is corrupted (77 instead of the valid 76) is rejected, and the calibrated
measurement built on it returns no decoded value. -/
theorem c4_checksum_mismatch_witness :
    ((_cmd ⟨[0x58], [[1, 144, 77, 0, 100, 254]], fun _ => true⟩ ⟨true, 0, 0, []⟩
        0x2008 2 10).1 = .error .checksumMismatch ∧
     (∀ out, (_cmd ⟨[0x58], [[1, 144, 77, 0, 100, 254]], fun _ => true⟩ ⟨true, 0, 0, []⟩
        0x2008 2 10).1 ≠ .ok out) ∧
     (_cmd ⟨[0x58], [[1, 144, 77, 0, 100, 254]], fun _ => true⟩ ⟨true, 0, 0, []⟩
        0x2008 2 10).2.trace =
       [] ++ [Event.writeEv ADDR [0x20, 0x08], Event.sleepEv 10,
              Event.readEv ADDR 6]) ∧
    (air_quality ⟨[0x58], [[1, 144, 77, 0, 100, 254]], fun _ => true⟩
        ⟨true, 0, 0, []⟩).1 = .error .checksumMismatch :=
  ⟨c4_checksum_mismatch ⟨[0x58], [[1, 144, 77, 0, 100, 254]], fun _ => true⟩
      ⟨true, 0, 0, []⟩ 0x2008 2 10 0 rfl (by decide) (by decide),
   rfl⟩

/-- A calibrated measurement against a well-formed two-word response decodes
the first word into co2_ppm and the second into tvoc_ppb, big-endian. -/
theorem measure_decode (bus : Bus) (t : DriverState) (a b c d : Nat)
    (hb : b < 256) (hd : d < 256)
    (hw : bus.writeOk t.nWrites = true)
    (hr : bus.reads.getD t.nReads [] = [a, b, crc8 [a, b], c, d, crc8 [c, d]]) :
    (_measure_air_quality bus t).1 = .ok ⟨256 * a + b, 256 * c + d⟩ := by
  have hvalid : ∀ j < 2,
      crc8 (((bus.reads.getD t.nReads []).drop ((0 + j) * 3)).take 2) =
        (bus.reads.getD t.nReads []).getD ((0 + j) * 3 + 2) 0 := by
    intro j hj
    interval_cases j <;> rw [hr] <;> rfl
  have hp := parseResp_ok_of_valid 2 0 _ hvalid
  have hstrip : stripChecksums (bus.reads.getD t.nReads []) 0 2 = [a, b, c, d] := by
    rw [hr]
    rfl
  rw [hstrip] at hp
  unfold _measure_air_quality
  rw [cmd_pos bus t 0x2008 2 10 hw (by omega), hp]
  have h1 : a <<< 8 ||| b = 256 * a + b := by
    rw [Nat.shiftLeft_eq, Nat.mul_comm]
    have hb8 : b < 2 ^ 8 := by norm_num; omega
    rw [lor_high_low 8 a b hb8]
    norm_num
  have h2 : c <<< 8 ||| d = 256 * c + d := by
    rw [Nat.shiftLeft_eq, Nat.mul_comm]
    have hd8 : d < 2 ^ 8 := by norm_num; omega
    rw [lor_high_low 8 c d hd8]
    norm_num
  simp [List.getD, h1, h2]

/-- C1: every successful calibrated measurement (first call or later) decodes
the two response words as big-endian 16-bit integers in fixed order: the
first word becomes co2_ppm, the second tvoc_ppb. -/
theorem c1_measure_decode (bus : Bus) (s : DriverState) (a b c d : Nat)
    (_ha : a < 256) (hb : b < 256) (_hc : c < 256) (hd : d < 256)
    (hw1 : bus.writeOk s.nWrites = true) (hw2 : bus.writeOk (s.nWrites + 1) = true)
    (hr : bus.reads.getD s.nReads [] = [a, b, crc8 [a, b], c, d, crc8 [c, d]]) :
    (air_quality bus s).1 = .ok ⟨256 * a + b, 256 * c + d⟩ := by
  cases hinit : s._init
  · rw [aq_unfold_first bus s hinit hw1]
    exact measure_decode bus _ a b c d hb hd hw2 hr
  · rw [aq_unfold_subsequent bus s hinit]
    exact measure_decode bus s a b c d hb hd hw1 hr

/-- Witness for C1: the response [0x01, 0x90, crc, 0x00, 0x64, crc] decodes
to co2_ppm = 400 and tvoc_ppb = 100. -/
theorem c1_measure_decode_witness :
    (air_quality ⟨[0x58], [[0x01, 0x90, 76, 0x00, 0x64, 254]], fun _ => true⟩
        ⟨false, 0, 0, []⟩).1 = .ok ⟨400, 100⟩ := by
  have h := c1_measure_decode
    ⟨[0x58], [[0x01, 0x90, 76, 0x00, 0x64, 254]], fun _ => true⟩
    ⟨false, 0, 0, []⟩ 0x01 0x90 0x00 0x64
    (by decide) (by decide) (by decide) (by decide) rfl rfl (by decide)
  simpa using h

/-- Indexing with default 0 into a list of bytes stays below 256. -/
theorem getD_lt_256 (l : List Nat) (hl : ∀ x ∈ l, x < 256) (k : Nat) :
    l.getD k 0 < 256 := by
  rcases Nat.lt_or_ge k l.length with hk | hk
  · rw [List.getD_eq_getElem l 0 hk]
    exact hl _ (List.getElem_mem hk)
  · rw [List.getD_eq_default l 0 hk]
    norm_num

/-- Two bytes assembled high-shifted-or-low stay within 16 bits. -/
theorem byte_pair_le (a b : Nat) (ha : a < 256) (hb : b < 256) :
    a <<< 8 ||| b ≤ 65535 := by
  have h1 : a <<< 8 < 2 ^ 16 := by
    rw [Nat.shiftLeft_eq]
    have h28 : (2 : Nat) ^ 8 = 256 := by norm_num
    have h216 : (2 : Nat) ^ 16 = 65536 := by norm_num
    rw [h28, h216]
    omega
  have h2 : b < 2 ^ 16 := by
    have h216 : (2 : Nat) ^ 16 = 65536 := by norm_num
    omega
  have h3 := Nat.or_lt_two_pow h1 h2
  have h216 : (2 : Nat) ^ 16 = 65536 := by norm_num
  omega

/-- A successful calibrated measurement over byte-valued responses yields two
values of at most 65535. -/
theorem measure_range (bus : Bus) (t : DriverState) (m : Measurement)
    (hbytes : ∀ (i : Nat), ∀ x ∈ bus.reads.getD i [], x < 256)
    (hm : (_measure_air_quality bus t).1 = .ok m) :
    m.co2_ppm ≤ 65535 ∧ m.tvoc_ppb ≤ 65535 := by
  unfold _measure_air_quality at hm
  cases hcw : bus.writeOk t.nWrites
  · rw [cmd_write_fail bus t 0x2008 2 10 hcw] at hm
    cases hm
  · rw [cmd_pos bus t 0x2008 2 10 hcw (by omega)] at hm
    cases hp : parseResp (bus.reads.getD t.nReads []) 0 2 with
    | error e =>
      rw [hp] at hm
      cases hm
    | ok resp =>
      rw [hp] at hm
      injection hm with hm2
      have hsub := parseResp_ok_strip 2 0 _ resp hp
      have hmem : ∀ x ∈ resp, x < 256 := by
        intro x hx
        rw [hsub] at hx
        exact hbytes t.nReads x (stripChecksums_mem 2 0 _ x hx)
      rw [← hm2]
      constructor
      · exact byte_pair_le _ _ (getD_lt_256 resp hmem 0) (getD_lt_256 resp hmem 1)
      · exact byte_pair_le _ _ (getD_lt_256 resp hmem 2) (getD_lt_256 resp hmem 3)

/-- C8 counterexample: a successful calibrated call can return values above
60000 — the driver does not clamp, the raw 16-bit decode is returned. -/
theorem c8_range_counterexample :
    (air_quality ⟨[0x58], [[255, 255, 172, 255, 255, 172]], fun _ => true⟩
        ⟨true, 0, 0, []⟩).1 = .ok ⟨65535, 65535⟩ ∧ ¬(65535 ≤ 60000) :=
  ⟨rfl, by omega⟩

/-- C8 (amended): every successful calibrated measurement over a transport
that returns bytes yields co2_ppm and tvoc_ppb in [0, 65535]; the driver
performs no clamping at 60000. -/
theorem c8_measurement_range (bus : Bus) (s : DriverState) (m : Measurement)
    (hbytes : ∀ (i : Nat), ∀ x ∈ bus.reads.getD i [], x < 256)
    (hm : (air_quality bus s).1 = .ok m) :
    m.co2_ppm ≤ 65535 ∧ m.tvoc_ppb ≤ 65535 := by
  cases hinit : s._init
  · cases hw : bus.writeOk s.nWrites
    · have hfail := cmd_write_fail bus s 0x2003 0 10 hw
      have herr : air_quality bus s =
          (.error .transportError,
           { s with nWrites := s.nWrites + 1,
                    trace := s.trace ++
                      [Event.writeEv ADDR [8195 >>> 8, 8195 &&& 255]] }) := by
        simp [air_quality, _init_air_quality, hinit, hfail]
      rw [herr] at hm
      cases hm
    · rw [aq_unfold_first bus s hinit hw] at hm
      exact measure_range bus _ m hbytes hm
  · rw [aq_unfold_subsequent bus s hinit] at hm
    exact measure_range bus s m hbytes hm

/-- Witness for C8 (amended), at the maximal byte response. -/
theorem c8_measurement_range_witness :
    Measurement.co2_ppm ⟨65535, 65535⟩ ≤ 65535 ∧
    Measurement.tvoc_ppb ⟨65535, 65535⟩ ≤ 65535 :=
  c8_measurement_range ⟨[0x58], [[255, 255, 172, 255, 255, 172]], fun _ => true⟩
    ⟨true, 0, 0, []⟩ ⟨65535, 65535⟩
    (by
      intro i x hx
      cases i with
      | zero => fin_cases hx <;> norm_num
      | succ n => simp at hx)
    rfl

/-- The calibrated measurement extends the log by one write-sleep-read
shaped fragment. -/
theorem measure_trace_ext (bus : Bus) (t : DriverState) :
    ∃ ext, (_measure_air_quality bus t).2.trace = t.trace ++ ext ∧
      wsrShape ext = true := by
  unfold _measure_air_quality
  obtain ⟨ext, he, hs⟩ := cmd_trace_ext bus t 0x2008 2 10
  cases hc : _cmd bus t 0x2008 2 10 with
  | mk r t1 =>
    rw [hc] at he
    cases r <;> exact ⟨ext, he, hs⟩

/-- The self test extends the log by one write-sleep-read shaped fragment
(an empty one when it is refused). -/
theorem measure_test_trace_ext (bus : Bus) (s : DriverState) :
    ∃ ext, (measure_test bus s).2.trace = s.trace ++ ext ∧ wsrShape ext = true := by
  cases hinit : s._init
  · obtain ⟨ext, he, hs⟩ := cmd_trace_ext bus s 0x2032 1 250
    have hmt : (measure_test bus s).2 = (_cmd bus s 0x2032 1 250).2 := by
      simp only [measure_test, hinit, Bool.false_eq_true, if_false]
      cases hc : _cmd bus s 0x2032 1 250 with
      | mk r t1 =>
        cases r with
        | error e => rfl
        | ok resp => by_cases hr : resp = [0xd4, 0x00] <;> simp [hr]
    rw [hmt]
    exact ⟨ext, he, hs⟩
  · refine ⟨[], ?_, rfl⟩
    simp [measure_test, hinit]

/-- C9 (amended): every command execution performs at most one write, one
sleep and at most one read, in that fixed order; the identification, raw and
self-test operations and every later calibrated call consist of one such
command, while the first calibrated call consists of two in sequence (init
then measure). -/
theorem c9_wsr_per_command (bus : Bus) (s : DriverState) :
    (∃ ext, (_get_serial_id bus s).2.trace = s.trace ++ ext ∧ wsrShape ext = true) ∧
    (∃ ext, (_measure_raw_signals bus s).2.trace = s.trace ++ ext ∧
      wsrShape ext = true) ∧
    (∃ ext, (measure_test bus s).2.trace = s.trace ++ ext ∧ wsrShape ext = true) ∧
    (s._init = true →
      ∃ ext, (air_quality bus s).2.trace = s.trace ++ ext ∧ wsrShape ext = true) ∧
    (s._init = false →
      ∃ ext1 ext2, (air_quality bus s).2.trace = (s.trace ++ ext1) ++ ext2 ∧
        wsrShape ext1 = true ∧ wsrShape ext2 = true) := by
  refine ⟨?_, ?_, ?_, ?_, ?_⟩
  · unfold _get_serial_id
    exact cmd_trace_ext bus s 0x3682 3 10
  · unfold _measure_raw_signals
    exact cmd_trace_ext bus s 0x2050 2 10
  · exact measure_test_trace_ext bus s
  · intro h
    rw [aq_unfold_subsequent bus s h]
    exact measure_trace_ext bus s
  · intro h
    cases hw : bus.writeOk s.nWrites
    · refine ⟨[Event.writeEv ADDR [8195 >>> 8, 8195 &&& 255]], [], ?_, rfl, rfl⟩
      have hfail := cmd_write_fail bus s 0x2003 0 10 hw
      have herr : air_quality bus s =
          (.error .transportError,
           { s with nWrites := s.nWrites + 1,
                    trace := s.trace ++
                      [Event.writeEv ADDR [8195 >>> 8, 8195 &&& 255]] }) := by
        simp [air_quality, _init_air_quality, h, hfail]
      rw [herr]
      simp
    · rw [aq_unfold_first bus s h hw]
      obtain ⟨ext2, he2, hs2⟩ := measure_trace_ext bus
        { s with _init := true, nWrites := s.nWrites + 1,
                 trace := s.trace ++ [Event.writeEv ADDR [0x20, 0x03],
                                      Event.sleepEv 10] }
      exact ⟨[Event.writeEv ADDR [0x20, 0x03], Event.sleepEv 10], ext2,
        by rw [he2], rfl, hs2⟩

/-- Witness for C9 (amended): both branches of the calibrated call on a
concrete bus. -/
theorem c9_wsr_per_command_witness :
    (∃ ext, (air_quality ⟨[0x58], [[1, 144, 76, 0, 100, 254]], fun _ => true⟩
        ⟨true, 0, 0, []⟩).2.trace = [] ++ ext ∧ wsrShape ext = true) ∧
    (∃ ext1 ext2, (air_quality ⟨[0x58], [[1, 144, 76, 0, 100, 254]], fun _ => true⟩
        ⟨false, 0, 0, []⟩).2.trace = ([] ++ ext1) ++ ext2 ∧
      wsrShape ext1 = true ∧ wsrShape ext2 = true) :=
  ⟨(c9_wsr_per_command ⟨[0x58], [[1, 144, 76, 0, 100, 254]], fun _ => true⟩
      ⟨true, 0, 0, []⟩).2.2.2.1 rfl,
   (c9_wsr_per_command ⟨[0x58], [[1, 144, 76, 0, 100, 254]], fun _ => true⟩
      ⟨false, 0, 0, []⟩).2.2.2.2 rfl⟩

/-- C9 counterexample: the first calibrated call performs two bus writes
(init then measure), not at most one. -/
theorem c9_single_command_counterexample :
    writeCount ((air_quality ⟨[0x58], [[1, 144, 76, 0, 100, 254]], fun _ => true⟩
        ⟨false, 0, 0, []⟩).2.trace) = 2 ∧
    ¬(writeCount ((air_quality ⟨[0x58], [[1, 144, 76, 0, 100, 254]], fun _ => true⟩
        ⟨false, 0, 0, []⟩).2.trace) ≤ 1) := by
  constructor <;> decide
